import Mathlib

/-!
Shallow embedding of `src/backend/backend.py` (repository 7BigD/hacksonPet):
a FastAPI relay that accepts one uploaded image plus a `mode` form field,
base64-encodes the bytes, forwards them to the volcengine "seedream" vendor
API and maps the vendor response to `{"result": <base64>}` or an HTTP error.

Only the *active* (uncommented) code of the file is embedded:
`call_seedream_api` (lines 32-92) and the `POST /generate` handler
`generate_image` (lines 133-157).  The external vendor call
`visual_service.cv_process` is a parameter of the model (a function from
the request body to either a response object or a raised exception's
message), because its implementation lives in the vendor SDK.
-/

namespace Backend

/-! ### Base64 (models Python's `base64.b64encode` on byte strings)

`generate_image` computes `base64.b64encode(contents).decode('utf-8')`.
Bytes are modelled as natural numbers below 256. -/

/-- The standard base64 alphabet, in index order. -/
def b64Alphabet : List Char :=
  ['A','B','C','D','E','F','G','H','I','J','K','L','M',
   'N','O','P','Q','R','S','T','U','V','W','X','Y','Z',
   'a','b','c','d','e','f','g','h','i','j','k','l','m',
   'n','o','p','q','r','s','t','u','v','w','x','y','z',
   '0','1','2','3','4','5','6','7','8','9','+','/']

/-- The base64 digit for a 6-bit value. -/
def encChar (v : Nat) : Char := b64Alphabet.getD v 'A'

/-- The 6-bit value of a base64 digit, `none` for characters outside the
alphabet (in particular for the padding character). -/
def decChar (c : Char) : Option Nat := b64Alphabet.findIdx? (· == c)

/-- One full 3-byte group encoded as 4 base64 digits. -/
def encByte3 (a b c : Nat) : List Char :=
  [encChar (a / 4), encChar (a % 4 * 16 + b / 16),
   encChar (b % 16 * 4 + c / 64), encChar (c % 64)]

/-- Standard base64 encoding of a byte sequence, with `=` padding, as
performed by Python's `base64.b64encode`. -/
def b64encodeBytes : List Nat → List Char
  | [] => []
  | [a] => [encChar (a / 4), encChar (a % 4 * 16), '=', '=']
  | [a, b] => [encChar (a / 4), encChar (a % 4 * 16 + b / 16),
               encChar (b % 16 * 4), '=']
  | a :: b :: c :: rest => encByte3 a b c ++ b64encodeBytes rest

/-- Standard base64 decoding (the inverse direction a client performs on the
returned `result` string); `none` on malformed input. -/
def b64decode : List Char → Option (List Nat)
  | [] => some []
  | c1 :: c2 :: c3 :: c4 :: rest =>
    match decChar c1, decChar c2 with
    | some v1, some v2 =>
      if c3 = '=' then
        if c4 = '=' ∧ rest = [] then some [v1 * 4 + v2 / 16] else none
      else
        match decChar c3 with
        | some v3 =>
          if c4 = '=' then
            if rest = [] then
              some [v1 * 4 + v2 / 16, v2 % 16 * 16 + v3 / 4]
            else none
          else
            match decChar c4, b64decode rest with
            | some v4, some bs =>
              some ((v1 * 4 + v2 / 16) :: (v2 % 16 * 16 + v3 / 4) ::
                    (v3 % 4 * 64 + v4) :: bs)
            | _, _ => none
        | none => none
    | _, _ => none
  | _ => none

lemma decChar_encChar {v : Nat} (h : v < 64) : decChar (encChar v) = some v := by
  have key : ∀ w : Fin 64, decChar (encChar w.val) = some w.val := by decide
  exact key ⟨v, h⟩

lemma encChar_ne_pad {v : Nat} (h : v < 64) : encChar v ≠ '=' := by
  have key : ∀ w : Fin 64, encChar w.val ≠ '=' := by decide
  exact key ⟨v, h⟩

/-- Base64 round-trip: decoding an encoded byte sequence recovers it. -/
theorem b64decode_b64encodeBytes :
    ∀ bs : List Nat, (∀ x ∈ bs, x < 256) →
      b64decode (b64encodeBytes bs) = some bs := by
  intro bs
  induction bs using b64encodeBytes.induct with
  | case1 =>
    intro _
    rfl
  | case2 a =>
    intro h
    have ha : a < 256 := h a (by simp)
    have h1 : a / 4 < 64 := by omega
    have h2 : a % 4 * 16 < 64 := by omega
    simp only [b64encodeBytes, b64decode]
    rw [decChar_encChar h1, decChar_encChar h2]
    simp only [if_pos rfl]
    norm_num
    omega
  | case3 a b =>
    intro h
    have ha : a < 256 := h a (by simp)
    have hb : b < 256 := h b (by simp)
    have h1 : a / 4 < 64 := by omega
    have h2 : a % 4 * 16 + b / 16 < 64 := by omega
    have h3 : b % 16 * 4 < 64 := by omega
    simp [b64encodeBytes, b64decode, decChar_encChar h1, decChar_encChar h2,
      decChar_encChar h3, encChar_ne_pad h3]
    constructor
    · omega
    · omega
  | case4 a b c rest ih =>
    intro h
    have ha : a < 256 := h a (by simp)
    have hb : b < 256 := h b (by simp)
    have hc : c < 256 := h c (by simp)
    have hrest : ∀ x ∈ rest, x < 256 := by
      intro x hx
      exact h x (by simp [hx])
    have h1 : a / 4 < 64 := by omega
    have h2 : a % 4 * 16 + b / 16 < 64 := by omega
    have h3 : b % 16 * 4 + c / 64 < 64 := by omega
    have h4 : c % 64 < 64 := by omega
    simp [b64encodeBytes, encByte3, b64decode, decChar_encChar h1,
      decChar_encChar h2, decChar_encChar h3, decChar_encChar h4,
      encChar_ne_pad h3, encChar_ne_pad h4, ih hrest]
    refine ⟨by omega, by omega, by omega⟩

/-! ### Vendor interface

`visual_service.cv_process(body)` takes the request body dict and either
returns a response dict or raises.  The response dict carries a numeric
`code`, a `message` string and a `data` dict in which each of the keys
`image_list` / `binary_data_base64` may be absent (`none`), or present with
a list of base64 strings.  A response with no `data` key
(`resp.get("data", {})` in the source) is one whose two fields are `none`. -/

/-- The `data` member of a vendor response: each key may be absent or hold a
list of base64 image strings. -/
structure VendorData where
  image_list : Option (List String)
  binary_data_base64 : Option (List String)
deriving DecidableEq, Repr

/-- A vendor response dict: numeric status `code`, `message`, `data`. -/
structure VendorResp where
  code : Int
  message : String
  data : VendorData
deriving DecidableEq, Repr

/-- The request body built at lines 50-59 of `backend.py` (field order as in
the source dict).  `strength` is a rational because the source stores the
exact decimal literals 0.6 / 0.45. -/
structure Body where
  req_key : String
  prompt : String
  binary_data_base64 : List String
  image_num : Nat
  strength : ℚ
  seed : Int
  width : Nat
  height : Nat
deriving DecidableEq, Repr

/-- The outcome of `visual_service.cv_process`: a response, or the string of
a raised exception. -/
abbrev CvProcess := Body → Except String VendorResp

/-- Lines 33-59 of `call_seedream_api`: the fixed `req_key`, the
mode-dependent prompt/strength pair, and the request body. -/
def buildBody (image_base64 : String) (mode : String) : Body :=
  let current_req_key := "jimeng_t2i_v40"
  let (prompt, strength) : String × ℚ :=
    if mode = "portrait" then
      ("Professional pet photography, Christmas theme, pet wearing a red Santa hat, cozy fireplace background, soft lighting, 8k resolution, highly detailed fur",
       0.6)
    else
      ("High-quality pet lifestyle photography, soft natural lighting, clean pastel cream background, pet looking at camera with innocent eyes, soft fluffy fur texture, heartwarming atmosphere, minimalist aesthetic, extremely detailed, 8k resolution, professional studio shot",
       0.45)
  { req_key := current_req_key
    prompt := prompt
    binary_data_base64 := [image_base64]
    image_num := 1
    strength := strength
    seed := -1
    width := 1024
    height := 1024 }

/-- `call_seedream_api` (lines 32-92 of `backend.py`), parameterized by the
vendor call `cv`.  The first component is the `(result, error)` pair the
Python function returns; the second counts how many times `cv_process` was
invoked on the way (the instrumentation used to state "the vendor call is
(never) invoked"). -/
def call_seedream_api (cv : CvProcess) (image_base64 : String) (mode : String) :
    (Option String × Option String) × Nat :=
  let body := buildBody image_base64 mode
  match cv body with
  | .error e => ((none, some e), 1)
  | .ok resp =>
    if resp.code ≠ 10000 then
      ((none, some ("API报错: " ++ resp.message)), 1)
    else
      let data := resp.data
      match data.image_list with
      | some (x :: _) => ((some x, none), 1)
      | _ =>
        match data.binary_data_base64 with
        | some (y :: _) => ((some y, none), 1)
        | _ => ((none, some "接口未返回图片数据"), 1)

/-! ### The HTTP handler -/

/-- An uploaded file as the handler sees it: declared filename and content
type, and the outcome of `await file.read()` (bytes, or the message of a
raised exception). -/
structure UploadFile where
  filename : String
  content_type : String
  read : Except String (List Nat)

/-- What FastAPI sends back for one request: `ok r` is
`200 {"result": r}` (with `null` for `none`), `err s d` is an
`HTTPException` rendered as status `s` with JSON `{"detail": d}`. -/
inductive HandlerResult where
  | ok (result : Option String)
  | err (status : Nat) (detail : String)
deriving DecidableEq, Repr

/-- Python truthiness of the `error_msg` value at line 147
(`if error_msg:`): `None` and the empty string are falsy. -/
def truthy : Option String → Bool
  | none => false
  | some m => m ≠ ""

/-- `str(HTTPException(status_code, detail))`, which is
`f"{self.status_code}: {self.detail}"` by starlette's
`HTTPException.__str__` (fastapi's `HTTPException` inherits it). -/
def httpExcStr (status : Nat) (detail : String) : String :=
  toString status ++ ": " ++ detail

/-- The `POST /generate` handler `generate_image` (lines 133-157),
parameterized by the vendor call.  The first component is the HTTP response;
the second counts vendor invocations.

The body runs under `try`: an exception from `await file.read()` is caught
at line 154 and re-raised as `HTTPException(500, str(e))`; the
`HTTPException(500, error_msg)` raised at line 149 is itself an `Exception`,
so it too is caught at line 154 and re-raised as
`HTTPException(500, str(e))` where `str(e) = "500: " ++ error_msg`. -/
def generate_image (file : UploadFile) (mode : String) (cv : CvProcess) :
    HandlerResult × Nat :=
  match file.read with
  | .error e => (.err 500 e, 0)
  | .ok contents =>
    let image_base64 := String.mk (b64encodeBytes contents)
    let r := call_seedream_api cv image_base64 mode
    let result_base64 := r.1.1
    let error_msg := r.1.2
    if truthy error_msg then
      (.err 500 (httpExcStr 500 (error_msg.getD "")), r.2)
    else
      (.ok result_base64, r.2)

/-! ### Helper lemmas and concrete fixtures -/

/-- Whether a `data` field passes the source's guard
`"<key>" in data and len(data["<key>"]) > 0`. -/
def fieldNonempty : Option (List String) → Bool
  | some (_ :: _) => true
  | _ => false

/-- Every control path of `call_seedream_api` invokes `cv_process` exactly
once. -/
lemma call_seedream_api_count (cv : CvProcess) (s mode : String) :
    (call_seedream_api cv s mode).2 = 1 := by
  unfold call_seedream_api
  cases h : cv (buildBody s mode) with
  | error e => simp [h]
  | ok resp =>
    by_cases hc : resp.code = 10000
    · rcases hi : resp.data.image_list with _ | ⟨_ | ⟨x, xs⟩⟩ <;>
        rcases hb : resp.data.binary_data_base64 with _ | ⟨_ | ⟨y, ys⟩⟩ <;>
          simp [h, hc, hi, hb]
    · simp [h, hc]

/-- When the body read succeeds, the handler invokes the vendor exactly
once. -/
lemma generate_image_count (f : UploadFile) (cs : List Nat)
    (hr : f.read = .ok cs) (mode : String) (cv : CvProcess) :
    (generate_image f mode cv).2 = 1 := by
  unfold generate_image
  rw [hr]
  dsimp only
  split <;> simp [call_seedream_api_count]

/-- The handler only ever produces the error status 500. -/
lemma generate_image_err_status (f : UploadFile) (mode : String)
    (cv : CvProcess) (s : Nat) (d : String)
    (h : (generate_image f mode cv).1 = .err s d) : s = 500 := by
  unfold generate_image at h
  rcases hr : f.read with e | cs <;> rw [hr] at h <;> dsimp only at h
  · exact (HandlerResult.err.injEq 500 e s d |>.mp h).1.symm
  · split at h
    · exact (HandlerResult.err.injEq 500 _ s d |>.mp h).1.symm
    · exact absurd h (by simp)

/-- A vendor stub that always succeeds with `image_list = ["IMG"]`. -/
def stubRespOk : VendorResp := ⟨10000, "ok", ⟨some ["IMG"], none⟩⟩

/-- The always-successful vendor call. -/
def stubOk : CvProcess := fun _ => .ok stubRespOk

/-- A small well-formed JPEG upload. -/
def smallJpeg : UploadFile := ⟨"cat.jpg", "image/jpeg", .ok [1, 2, 3]⟩

/-- An upload whose declared content type is plain text, far outside the
allow-set named by the spec. -/
def textUpload : UploadFile := ⟨"notes.txt", "text/plain", .ok [1, 2, 3]⟩

/-- An upload of 10 MiB + 1 bytes (10485761 > 10 * 1024 * 1024). -/
def bigUpload : UploadFile :=
  ⟨"big.jpg", "image/jpeg", .ok (List.replicate 10485761 0)⟩

/-- Against the always-successful stub vendor, every readable upload —
whatever its declared content type, its filename or its size — produces
`200 {"result": "IMG"}` after exactly one vendor invocation. -/
lemma generate_image_stubOk (f : UploadFile) (cs : List Nat)
    (hr : f.read = .ok cs) (mode : String) :
    generate_image f mode stubOk = (.ok (some "IMG"), 1) := by
  unfold generate_image
  rw [hr]
  simp [call_seedream_api, stubOk, stubRespOk, truthy]

/-! ### Claim theorems -/

/-- Claim C6 (confirmed): the vendor payload is keyed only by `mode`:
`mode = "portrait"` selects the fixed Christmas-portrait prompt with
strength 0.6, any other mode the fixed lifestyle prompt with strength
0.45; every payload carries `width = 1024`, `height = 1024`,
`image_num = 1` and the sentinel `seed = -1`. -/
theorem C6_payload_construction (s mode : String) :
    (buildBody s mode).req_key = "jimeng_t2i_v40" ∧
    (buildBody s mode).binary_data_base64 = [s] ∧
    (buildBody s mode).image_num = 1 ∧
    (buildBody s mode).strength =
      (if mode = "portrait" then (0.6 : ℚ) else 0.45) ∧
    (buildBody s mode).seed = -1 ∧
    (buildBody s mode).width = 1024 ∧
    (buildBody s mode).height = 1024 ∧
    (mode = "portrait" →
      (buildBody s mode).prompt =
        "Professional pet photography, Christmas theme, pet wearing a red Santa hat, cozy fireplace background, soft lighting, 8k resolution, highly detailed fur") ∧
    (mode ≠ "portrait" →
      (buildBody s mode).prompt =
        "High-quality pet lifestyle photography, soft natural lighting, clean pastel cream background, pet looking at camera with innocent eyes, soft fluffy fur texture, heartwarming atmosphere, minimalist aesthetic, extremely detailed, 8k resolution, professional studio shot") := by
  by_cases h : mode = "portrait" <;> simp [buildBody, h]

/-- Claim C6, witness: both branches of the payload table, evaluated at
`mode = "portrait"` and `mode = "meme"`. -/
theorem C6_payload_construction_witness :
    (buildBody "AQID" "portrait").strength = (0.6 : ℚ) ∧
    (buildBody "AQID" "portrait").prompt =
      "Professional pet photography, Christmas theme, pet wearing a red Santa hat, cozy fireplace background, soft lighting, 8k resolution, highly detailed fur" ∧
    (buildBody "AQID" "meme").strength = (0.45 : ℚ) ∧
    (buildBody "AQID" "meme").seed = -1 := by
  refine ⟨?_, (C6_payload_construction "AQID" "portrait").2.2.2.2.2.2.2.1 rfl, ?_, ?_⟩
  · have h := (C6_payload_construction "AQID" "portrait").2.2.2.1
    simpa using h
  · have h := (C6_payload_construction "AQID" "meme").2.2.2.1
    simpa using h
  · exact (C6_payload_construction "AQID" "meme").2.2.2.2.1

/-- Claim C9 (confirmed): `call_seedream_api` always returns a pair with
exactly one non-`None` component: a result with no error, or no result with
an error message. -/
theorem C9_exactly_one_result_or_error (cv : CvProcess) (s mode : String) :
    ((call_seedream_api cv s mode).1.1.isSome = true ∧
      (call_seedream_api cv s mode).1.2 = none) ∨
    ((call_seedream_api cv s mode).1.1 = none ∧
      (call_seedream_api cv s mode).1.2.isSome = true) := by
  unfold call_seedream_api
  cases h : cv (buildBody s mode) with
  | error e => simp [h]
  | ok resp =>
    by_cases hc : resp.code = 10000
    · rcases hi : resp.data.image_list with _ | ⟨_ | ⟨x, xs⟩⟩ <;>
        rcases hb : resp.data.binary_data_base64 with _ | ⟨_ | ⟨y, ys⟩⟩ <;>
          simp [h, hc, hi, hb]
    · simp [h, hc]

/-- Claim C10 (confirmed): the `mode` form field is never validated: for
every mode other than exactly `"portrait"` the handler proceeds (vendor
invoked once, no 400 rejection) using the lifestyle prompt and strength
0.45. -/
theorem C10_mode_not_validated (f : UploadFile) (cs : List Nat)
    (hr : f.read = .ok cs) (mode : String) (hmode : mode ≠ "portrait")
    (cv : CvProcess) (s : String) :
    (buildBody s mode).prompt =
      "High-quality pet lifestyle photography, soft natural lighting, clean pastel cream background, pet looking at camera with innocent eyes, soft fluffy fur texture, heartwarming atmosphere, minimalist aesthetic, extremely detailed, 8k resolution, professional studio shot" ∧
    (buildBody s mode).strength = (0.45 : ℚ) ∧
    (generate_image f mode cv).2 = 1 ∧
    (∀ d, (generate_image f mode cv).1 ≠ .err 400 d) := by
  refine ⟨by simp [buildBody, hmode], by simp [buildBody, hmode],
    generate_image_count f cs hr mode cv, ?_⟩
  intro d h
  have := generate_image_err_status f mode cv 400 d h
  omega

/-- Claim C10, witness: `mode = "meme"` is accepted and succeeds against the
successful stub vendor. -/
theorem C10_mode_not_validated_witness :
    (buildBody "AQID" "meme").strength = (0.45 : ℚ) ∧
    (generate_image smallJpeg "meme" stubOk).2 = 1 ∧
    (generate_image smallJpeg "meme" stubOk).1 ≠ .err 400 "x" := by
  have h := C10_mode_not_validated smallJpeg [1, 2, 3] rfl "meme"
    (by decide) stubOk "AQID"
  exact ⟨h.2.1, h.2.2.1, h.2.2.2 "x"⟩

/-- Claim C3 (confirmed): for `mode = "portrait"` and a readable upload,
when the vendor succeeds (code 10000) with a non-empty `image_list`, the
handler returns 200 with `result` equal to `image_list[0]`. -/
theorem C3_portrait_success (f : UploadFile) (cs : List Nat)
    (hr : f.read = .ok cs) (resp : VendorResp) (hcode : resp.code = 10000)
    (img : String) (rest : List String)
    (hlist : resp.data.image_list = some (img :: rest)) :
    (generate_image f "portrait" (fun _ => .ok resp)).1 = .ok (some img) := by
  unfold generate_image
  rw [hr]
  simp [call_seedream_api, hcode, hlist, truthy]

/-- Claim C3, witness: the stub vendor response with
`image_list = ["IMG"]` yields `200 {"result": "IMG"}`. -/
theorem C3_portrait_success_witness :
    (generate_image smallJpeg "portrait" (fun _ => .ok stubRespOk)).1
      = .ok (some "IMG") :=
  C3_portrait_success smallJpeg [1, 2, 3] rfl stubRespOk rfl "IMG" [] rfl

/-- Claim C1, counterexample: an upload declared `text/plain` — outside
{jpeg, png, webp, jpg} — is not rejected with 400; the handler invokes the
vendor call once and returns 200 with the stub image, refuting the claimed
content-type validation. -/
theorem C1_counterexample :
    textUpload.content_type = "text/plain" ∧
    textUpload.content_type ∉
      ["image/jpeg", "image/png", "image/webp", "image/jpg"] ∧
    (generate_image textUpload "portrait" stubOk).1 = .ok (some "IMG") ∧
    (generate_image textUpload "portrait" stubOk).2 = 1 := by
  have h := generate_image_stubOk textUpload [1, 2, 3] rfl "portrait"
  exact ⟨rfl, by decide, by rw [h], by rw [h]⟩

/-- Claim C1, amended: the active handler performs no content-type
validation at all — for every upload whose body read succeeds, whatever its
declared content type, the vendor call is invoked exactly once and no 400
response is ever produced. -/
theorem C1_no_content_type_validation (f : UploadFile) (cs : List Nat)
    (hr : f.read = .ok cs) (mode : String) (cv : CvProcess) :
    (generate_image f mode cv).2 = 1 ∧
    ∀ d, (generate_image f mode cv).1 ≠ .err 400 d := by
  refine ⟨generate_image_count f cs hr mode cv, ?_⟩
  intro d h
  have := generate_image_err_status f mode cv 400 d h
  omega

/-- Claim C1 (amended), witness: the `text/plain` upload goes through. -/
theorem C1_no_content_type_validation_witness :
    (generate_image textUpload "portrait" stubOk).2 = 1 ∧
    (generate_image textUpload "portrait" stubOk).1 ≠ .err 400 "x" := by
  have h := C1_no_content_type_validation textUpload [1, 2, 3] rfl
    "portrait" stubOk
  exact ⟨h.1, h.2 "x"⟩

/-- Claim C2, counterexample: an upload of 10 MiB + 1 bytes — over the
claimed 10 MiB ceiling — is not rejected with 400; the handler invokes the
vendor call once and returns 200 with the stub image, refuting the claimed
size validation. -/
theorem C2_counterexample :
    (List.replicate 10485761 (0 : Nat)).length = 10485761 ∧
    10485761 > 10 * 1024 * 1024 ∧
    bigUpload.read = .ok (List.replicate 10485761 0) ∧
    (generate_image bigUpload "portrait" stubOk).1 = .ok (some "IMG") ∧
    (generate_image bigUpload "portrait" stubOk).2 = 1 := by
  have h := generate_image_stubOk bigUpload (List.replicate 10485761 0) rfl
    "portrait"
  exact ⟨List.length_replicate 10485761 0, by norm_num, rfl, by rw [h],
    by rw [h]⟩

/-- Claim C2, amended: the active handler performs no size validation at
all — for every upload whose body read succeeds, including bodies longer
than 10 MiB, the vendor call is invoked exactly once and no 400 response is
ever produced. -/
theorem C2_no_size_validation (f : UploadFile) (cs : List Nat)
    (hr : f.read = .ok cs) (_hbig : cs.length > 10 * 1024 * 1024)
    (mode : String) (cv : CvProcess) :
    (generate_image f mode cv).2 = 1 ∧
    ∀ d, (generate_image f mode cv).1 ≠ .err 400 d := by
  refine ⟨generate_image_count f cs hr mode cv, ?_⟩
  intro d h
  have := generate_image_err_status f mode cv 400 d h
  omega

/-- Claim C2 (amended), witness: the 10 MiB + 1 upload goes through. -/
theorem C2_no_size_validation_witness :
    (generate_image bigUpload "portrait" stubOk).2 = 1 ∧
    (generate_image bigUpload "portrait" stubOk).1 ≠ .err 400 "x" := by
  have h := C2_no_size_validation bigUpload (List.replicate 10485761 0) rfl
    (by rw [List.length_replicate]; norm_num) "portrait" stubOk
  exact ⟨h.1, h.2 "x"⟩

/-- A `data` field fails the source's guard
`"<key>" in data and len(data["<key>"]) > 0` exactly when it is absent or
an empty list. -/
lemma fieldNonempty_eq_false {o : Option (List String)}
    (h : fieldNonempty o = false) : o = none ∨ o = some [] := by
  rcases o with _ | ⟨_ | _⟩ <;> simp_all [fieldNonempty]

/-- The source's vendor-error prefix is never the empty string, so line
147's truthiness test (`if error_msg:`) fires on it. -/
lemma api_err_ne_empty (m : String) : ("API报错: " ++ m) ≠ "" := by
  intro h
  have hd := congrArg String.data h
  rw [String.data_append] at hd
  exact absurd (List.append_eq_nil.mp hd).1 (by decide)

/-- A vendor response with a failing status code. -/
def stubRespBad : VendorResp := ⟨5000, "boom", ⟨none, none⟩⟩

/-- A successful vendor response carrying no image in either field. -/
def stubRespNoImage : VendorResp := ⟨10000, "ok", ⟨none, none⟩⟩

/-- Claim C4 (confirmed): a vendor response with status code ≠ 10000 makes
the handler answer 500, and the response's `detail`
(`"500: API报错: <message>"`, after the `HTTPException` raised at line 149
is re-stringified by the outermost `except` at line 157) contains the
vendor's `message` field. -/
theorem C4_vendor_error_maps_to_500 (f : UploadFile) (cs : List Nat)
    (hr : f.read = .ok cs) (mode : String) (resp : VendorResp)
    (hcode : resp.code ≠ 10000) :
    (generate_image f mode (fun _ => .ok resp)).1
      = .err 500 (httpExcStr 500 ("API报错: " ++ resp.message)) ∧
    ∃ pre, httpExcStr 500 ("API报错: " ++ resp.message)
      = pre ++ resp.message := by
  constructor
  · have hne := api_err_ne_empty resp.message
    unfold generate_image
    rw [hr]
    simp [call_seedream_api, hcode, truthy, hne]
  · exact ⟨toString 500 ++ ": " ++ "API报错: ",
      (String.append_assoc (toString 500 ++ ": ") "API报错: "
        resp.message).symm⟩

/-- Claim C4, witness: a vendor response with code 5000 and message
`"boom"` yields a 500 whose detail embeds `"boom"`. -/
theorem C4_vendor_error_maps_to_500_witness :
    (generate_image smallJpeg "portrait" (fun _ => .ok stubRespBad)).1
      = .err 500 (httpExcStr 500 ("API报错: " ++ "boom")) ∧
    ∃ pre, httpExcStr 500 ("API报错: " ++ "boom") = pre ++ "boom" :=
  C4_vendor_error_maps_to_500 smallJpeg [1, 2, 3] rfl "portrait"
    stubRespBad (by decide)

/-- Claim C5 (confirmed): on a successful vendor response the image is
`image_list[0]` when that list is non-empty, else `binary_data_base64[0]`
when that one is, and when neither field is populated the call reports the
source's "no image data" message (`"接口未返回图片数据"`) and the endpoint
answers 500 with it. -/
theorem C5_image_source_selection (s mode : String) (f : UploadFile)
    (cs : List Nat) (hr : f.read = .ok cs) (resp : VendorResp)
    (hcode : resp.code = 10000) :
    (∀ img rest, resp.data.image_list = some (img :: rest) →
        (call_seedream_api (fun _ => .ok resp) s mode).1
          = (some img, none)) ∧
    (∀ img rest, fieldNonempty resp.data.image_list = false →
        resp.data.binary_data_base64 = some (img :: rest) →
        (call_seedream_api (fun _ => .ok resp) s mode).1
          = (some img, none)) ∧
    (fieldNonempty resp.data.image_list = false →
        fieldNonempty resp.data.binary_data_base64 = false →
        (call_seedream_api (fun _ => .ok resp) s mode).1
            = (none, some "接口未返回图片数据") ∧
        (generate_image f mode (fun _ => .ok resp)).1
            = .err 500 (httpExcStr 500 "接口未返回图片数据")) := by
  refine ⟨?_, ?_, ?_⟩
  · intro img rest hl
    simp [call_seedream_api, hcode, hl]
  · intro img rest hempty hb
    rcases fieldNonempty_eq_false hempty with hi | hi <;>
      simp [call_seedream_api, hcode, hi, hb]
  · intro h1 h2
    have hmsg : ("接口未返回图片数据" : String) ≠ "" := by decide
    have hcall : ∀ s2 : String,
        (call_seedream_api (fun _ => .ok resp) s2 mode).1
          = (none, some "接口未返回图片数据") := by
      intro s2
      rcases fieldNonempty_eq_false h1 with hi | hi <;>
        rcases fieldNonempty_eq_false h2 with hb | hb <;>
          simp [call_seedream_api, hcode, hi, hb]
    refine ⟨hcall s, ?_⟩
    unfold generate_image
    rw [hr]
    simp [hcall, truthy, hmsg]

/-- Claim C5, witness: a code-10000 response with both image fields
unpopulated makes the call report the no-image message and the endpoint
answer 500 with it. -/
theorem C5_image_source_selection_witness :
    (call_seedream_api (fun _ => .ok stubRespNoImage) "AQID" "portrait").1
      = (none, some "接口未返回图片数据") ∧
    (generate_image smallJpeg "portrait" (fun _ => .ok stubRespNoImage)).1
      = .err 500 (httpExcStr 500 "接口未返回图片数据") :=
  (C5_image_source_selection "AQID" "portrait" smallJpeg [1, 2, 3] rfl
    stubRespNoImage rfl).2.2 rfl rfl

/-- A vendor response whose `image_list` holds the base64 encoding of the
bytes `[77, 97, 110]` (ASCII "Man", the classic base64 example). -/
def stubRespB64 : VendorResp :=
  ⟨10000, "ok", ⟨some [String.mk (b64encodeBytes [77, 97, 110])], none⟩⟩

/-- An upload whose body read raises. -/
def failingRead : UploadFile := ⟨"cat.jpg", "image/jpeg", .error "disk exploded"⟩

/-- A vendor call that raises (e.g. a network failure). -/
def stubThrow : CvProcess := fun _ => .error "connection refused"

/-- Claim C7 (confirmed): when the vendor's `image_list[0]` is the base64
encoding of some raw bytes, the handler returns exactly that string
(pass-through, by C3's path), and base64-decoding it recovers the raw bytes:
the round-trip is the identity. -/
theorem C7_base64_roundtrip (f : UploadFile) (cs : List Nat)
    (hr : f.read = .ok cs) (mode : String) (raw : List Nat)
    (hraw : ∀ x ∈ raw, x < 256) (resp : VendorResp)
    (hcode : resp.code = 10000) (rest : List String)
    (hlist : resp.data.image_list
      = some (String.mk (b64encodeBytes raw) :: rest)) :
    (generate_image f mode (fun _ => .ok resp)).1
      = .ok (some (String.mk (b64encodeBytes raw))) ∧
    b64decode (String.mk (b64encodeBytes raw)).data = some raw := by
  constructor
  · unfold generate_image
    rw [hr]
    simp [call_seedream_api, hcode, hlist, truthy]
  · show b64decode (b64encodeBytes raw) = some raw
    exact b64decode_b64encodeBytes raw hraw

/-- Claim C7, witness: the vendor returns the encoding of `[77, 97, 110]`;
the caller gets it unchanged and decodes it back to `[77, 97, 110]`. -/
theorem C7_base64_roundtrip_witness :
    (generate_image smallJpeg "portrait" (fun _ => .ok stubRespB64)).1
      = .ok (some (String.mk (b64encodeBytes [77, 97, 110]))) ∧
    b64decode (String.mk (b64encodeBytes [77, 97, 110])).data
      = some [77, 97, 110] :=
  C7_base64_roundtrip smallJpeg [1, 2, 3] rfl "portrait" [77, 97, 110]
    (by decide) stubRespB64 rfl [] rfl

/-- Claim C8 (confirmed): every exception raised in the handler body is
caught by the outermost `except` and mapped to a 500 whose detail is the
caught exception's string, verbatim: a failing body read yields
`500 {"detail": str(e)}` with no vendor call, and a truthy `error_msg`
yields the re-raised `HTTPException`'s string
(`"500: <error_msg>"`); every error response has status 500, and the
vendor is never invoked more than once (nothing is retried or queued). -/
theorem C8_outermost_catch (f : UploadFile) (mode : String) (cv : CvProcess) :
    (∀ e, f.read = .error e → generate_image f mode cv = (.err 500 e, 0)) ∧
    (∀ cs, f.read = .ok cs → ∀ m,
        (call_seedream_api cv (String.mk (b64encodeBytes cs)) mode).1.2
          = some m →
        m ≠ "" →
        (generate_image f mode cv).1 = .err 500 (httpExcStr 500 m)) ∧
    (∀ s d, (generate_image f mode cv).1 = .err s d → s = 500) ∧
    (generate_image f mode cv).2 ≤ 1 := by
  refine ⟨?_, ?_, ?_, ?_⟩
  · intro e he
    unfold generate_image
    rw [he]
  · intro cs hcs m hm hne
    unfold generate_image
    rw [hcs]
    simp [hm, truthy, hne]
  · exact fun s d h => generate_image_err_status f mode cv s d h
  · rcases hr : f.read with e | cs
    · unfold generate_image
      rw [hr]
      simp
    · have := generate_image_count f cs hr mode cv
      omega

/-- Claim C8, witness: a read failure surfaces as `500 "disk exploded"`
with zero vendor calls, and a vendor-call exception surfaces as
`500 "500: connection refused"`. -/
theorem C8_outermost_catch_witness :
    generate_image failingRead "portrait" stubOk
      = (.err 500 "disk exploded", 0) ∧
    (generate_image smallJpeg "portrait" stubThrow).1
      = .err 500 (httpExcStr 500 "connection refused") := by
  constructor
  · exact (C8_outermost_catch failingRead "portrait" stubOk).1
      "disk exploded" rfl
  · exact (C8_outermost_catch smallJpeg "portrait" stubThrow).2.1
      [1, 2, 3] rfl "connection refused" rfl (by decide)

end Backend
